import Mathlib

/-!
Verification of the generic SQLite query builder and the resource endpoints
of the authentication_and_authorization repository
(`src/api/src/config/database_manager.py`, `src/api/src/routers/*.py`).

Python keyword-argument bags (`**kwargs`) are modelled as ordered association
lists `List (String × Value)` (Python dicts preserve insertion order).  Scalar
values are modelled by `Value`; Python truthiness of the `table` argument is
modelled by `Value.falsy`.  Each of the four operations of `SQLiteManager` is
split the way the source is: a pure statement-building phase (the code up to
`self.cur.execute`) producing a structured statement whose `toSQL` rendering
is exactly the f-string built by the Python code, and an execution phase.
Execution against the store is modelled two ways: abstractly (an arbitrary
cursor function, used for the error-handling claims, with a `ConnAction` trace
recording every cursor invocation, rollback and commit), and concretely (a
small relational model of the sqlite3 engine restricted to the statement
shapes this builder emits, used for the functional claims).
-/

/-- A Python scalar value as used for filter/data arguments: `None`,
an `int`, or a `str`. -/
inductive Value where
  | none
  | int (i : Int)
  | str (s : String)
  deriving DecidableEq, Repr

/-- Python truthiness test (`if not table:`): `None`, `0` and `""` are falsy. -/
def Value.falsy : Value → Bool
  | Value.none => true
  | Value.int i => i = 0
  | Value.str s => s = ""

/-- Python `str()` conversion, used where a value is interpolated into an
f-string (only the trusted `table` argument is ever interpolated). -/
def Value.pyStr : Value → String
  | Value.none => "None"
  | Value.int i => toString i
  | Value.str s => s

/-- Error message of `select` when `table` is missing/falsy (verbatim from the
source). -/
def selectTableMsg : String :=
  "O argumento 'table' é obrigatório para a função select."

/-- Error message of `insert` when `table` is missing/falsy. -/
def insertTableMsg : String :=
  "O argumento 'table' é obrigatório para a função insert."

/-- Error message of `insert` when no data fields remain. -/
def insertNoDataMsg : String :=
  "Nenhum dado fornecido para inserção. (Ex: nome='Alice')"

/-- Error message of `update` when `table` is missing/falsy. -/
def updateTableMsg : String :=
  "O argumento 'table' é obrigatório para a função update."

/-- Error message of `update` when `data` is missing, empty or not a dict. -/
def updateDataMsg : String :=
  "O argumento 'data' (um dict) é obrigatório para informar o que deve ser alterado."

/-- Error message of `update` when the filter bag is empty (the
unsafe-operation guard). -/
def updateNoWhereMsg : String :=
  "UPDATE sem cláusula WHERE não é permitido por segurança. Forneça ao menos um filtro (ex: id=1)."

/-- Error message of `delete` when `table` is missing/falsy. -/
def deleteTableMsg : String :=
  "O argumento 'table' é obrigatório para a função delete."

/-- Error message of `delete` when the filter bag is empty (the
unsafe-operation guard). -/
def deleteNoWhereMsg : String :=
  "DELETE sem cláusula WHERE não é permitido por segurança. Forneça ao menos um filtro (ex: id=1)."

/-- The structured form of the SELECT statement built by
`SQLiteManager.select`: the interpolated table name, the projected columns,
the WHERE-clause keys (`where_clauses` before rendering) and the bound
parameters (`params`). -/
structure SelectStmt where
  table : String
  options : List String
  whereKeys : List String
  params : List Value
  deriving DecidableEq, Repr

/-- The exact query text `SQLiteManager.select` passes to `cur.execute`:
`SELECT {cols} FROM {table}` plus, when filters exist,
` WHERE k1 = ? AND k2 = ? ...`. -/
def SelectStmt.toSQL (s : SelectStmt) : String :=
  let cols := String.intercalate ", " s.options
  let query := "SELECT " ++ cols ++ " FROM " ++ s.table
  let whereClauses := s.whereKeys.map (fun k => k ++ " = ?")
  if whereClauses.isEmpty then query
  else query ++ " WHERE " ++ String.intercalate " AND " whereClauses

/-- Statement-building phase of `SQLiteManager.select`.  `table` and
`options` are the control arguments popped from `kwargs` (`table` defaults to
`Value.none` when absent, `options` to `["*"]`); `filters` is what remains of
`kwargs` in insertion order. -/
def selectBuild (table : Value) (options : List String)
    (filters : List (String × Value)) : Except String SelectStmt :=
  if table.falsy then Except.error selectTableMsg
  else
    Except.ok { table := table.pyStr, options := options,
                whereKeys := filters.map Prod.fst,
                params := filters.map Prod.snd }

/-- The structured form of the INSERT statement built by
`SQLiteManager.insert`. -/
structure InsertStmt where
  table : String
  columns : List String
  params : List Value
  deriving DecidableEq, Repr

/-- The exact query text of `SQLiteManager.insert`:
`INSERT INTO {table} ({cols_sql}) VALUES ({placeholders_sql})`. -/
def InsertStmt.toSQL (s : InsertStmt) : String :=
  let colsSql := String.intercalate ", " s.columns
  let placeholders := String.intercalate ", " (s.params.map (fun _ => "?"))
  "INSERT INTO " ++ s.table ++ " (" ++ colsSql ++ ") VALUES (" ++ placeholders ++ ")"

/-- Statement-building phase of `SQLiteManager.insert`: pop `table`, then
validate it is truthy and that data fields remain; columns are the remaining
keys and the bound values the remaining values, in matching order. -/
def insertBuild (table : Value) (data : List (String × Value)) :
    Except String InsertStmt :=
  if table.falsy then Except.error insertTableMsg
  else if data.isEmpty then Except.error insertNoDataMsg
  else
    Except.ok { table := table.pyStr, columns := data.map Prod.fst,
                params := data.map Prod.snd }

/-- The structured form of the UPDATE statement built by
`SQLiteManager.update`: SET keys from `data`, WHERE keys from the remaining
filters, parameters = SET values then WHERE values. -/
structure UpdateStmt where
  table : String
  setKeys : List String
  whereKeys : List String
  params : List Value
  deriving DecidableEq, Repr

/-- The exact query text of `SQLiteManager.update`:
`UPDATE {table} SET {set_sql} WHERE {where_sql}`. -/
def UpdateStmt.toSQL (s : UpdateStmt) : String :=
  let setSql := String.intercalate ", " (s.setKeys.map (fun k => k ++ " = ?"))
  let whereSql := String.intercalate " AND " (s.whereKeys.map (fun k => k ++ " = ?"))
  "UPDATE " ++ s.table ++ " SET " ++ setSql ++ " WHERE " ++ whereSql

/-- Statement-building phase of `SQLiteManager.update`.  `table` and `data`
are the control arguments popped from `kwargs` (both default to `None` when
absent, so `data` is an `Option`); `filters` is what remains.  Validation
order follows the source: `table` first, then `data`, then the empty-filter
(unsafe operation) guard.  Parameters are the SET values followed by the
WHERE values. -/
def updateBuild (table : Value) (data : Option (List (String × Value)))
    (filters : List (String × Value)) : Except String UpdateStmt :=
  if table.falsy then Except.error updateTableMsg
  else
    match data with
    | Option.none => Except.error updateDataMsg
    | Option.some d =>
      if d.isEmpty then Except.error updateDataMsg
      else if filters.isEmpty then Except.error updateNoWhereMsg
      else
        Except.ok { table := table.pyStr,
                    setKeys := d.map Prod.fst,
                    whereKeys := filters.map Prod.fst,
                    params := d.map Prod.snd ++ filters.map Prod.snd }

/-- The structured form of the DELETE statement built by
`SQLiteManager.delete`. -/
structure DeleteStmt where
  table : String
  whereKeys : List String
  params : List Value
  deriving DecidableEq, Repr

/-- The exact query text of `SQLiteManager.delete`:
`DELETE FROM {table} WHERE {where_sql}`. -/
def DeleteStmt.toSQL (s : DeleteStmt) : String :=
  let whereSql := String.intercalate " AND " (s.whereKeys.map (fun k => k ++ " = ?"))
  "DELETE FROM " ++ s.table ++ " WHERE " ++ whereSql

/-- Statement-building phase of `SQLiteManager.delete`: pop `table`, validate
it, then the empty-filter (unsafe operation) guard. -/
def deleteBuild (table : Value) (filters : List (String × Value)) :
    Except String DeleteStmt :=
  if table.falsy then Except.error deleteTableMsg
  else if filters.isEmpty then Except.error deleteNoWhereMsg
  else
    Except.ok { table := table.pyStr,
                whereKeys := filters.map Prod.fst,
                params := filters.map Prod.snd }

/-- A database row: the store returns each row as an ordered sequence of
column values. -/
abbrev Row := List Value

/-- One table of the sqlite3 store: its physical column order (the first
column is the INTEGER PRIMARY KEY, as in the repository's `users` and
`passwords` schemas) and its rows, each in that column order. -/
structure DBTable where
  cols : List String
  rows : List Row
  deriving DecidableEq, Repr

/-- The sqlite3 database file: named tables. -/
structure Store where
  tables : List (String × DBTable)
  deriving DecidableEq, Repr

/-- Index of a column name in a table's physical column order (first
occurrence). -/
def colIndex (cols : List String) (k : String) : Option Nat :=
  match cols with
  | [] => Option.none
  | c :: rest => if c = k then Option.some 0 else (colIndex rest k).map (· + 1)

/-- Value of a named column in a row laid out in `cols` order (missing
positions read as NULL, sqlite's behaviour for short rows). -/
def colValue (cols : List String) (r : Row) (k : String) : Option Value :=
  (colIndex cols k).map (fun i => r.getD i Value.none)

/-- sqlite3 evaluation of the WHERE conjunction `k1 = ? AND k2 = ? AND ...`
with the parameters bound in order: every equality must hold. -/
def rowMatches (cols : List String) (conds : List (String × Value)) (r : Row) : Bool :=
  conds.all (fun c =>
    match colValue cols r c.fst with
    | Option.some v => v = c.snd
    | Option.none => false)

/-- sqlite3 projection of a row onto an explicit (non-`*`) `options` column
list. -/
def projectRow (cols : List String) (options : List String) (r : Row) : Row :=
  options.map (fun k => (colValue cols r k).getD Value.none)

/-- Models the sqlite3 engine executing the SELECT statements this builder
emits (`SELECT cols FROM t [WHERE k1 = ? AND ...]` with bound parameters):
unknown table or WHERE/projection column is an operational error; otherwise
the rows satisfying every equality are returned in table order, projected
onto `options`. -/
def execSelect (st : Store) (s : SelectStmt) : Except String (List Row) :=
  match st.tables.lookup s.table with
  | Option.none => Except.error ("no such table: " ++ s.table)
  | Option.some t =>
    let conds := s.whereKeys.zip s.params
    if conds.all (fun c => t.cols.contains c.fst) then
      if s.options = ["*"] then
        Except.ok (t.rows.filter (rowMatches t.cols conds))
      else if s.options.all t.cols.contains then
        Except.ok ((t.rows.filter (rowMatches t.cols conds)).map
          (projectRow t.cols s.options))
      else Except.error "no such column"
    else Except.error "no such column"

/-- The INTEGER PRIMARY KEY value of a row as an integer (non-integer values
count as 0 for rowid-allocation purposes). -/
def pkInt : Value → Int
  | Value.int i => i
  | _ => 0

/-- The rowid sqlite3 assigns to a newly inserted row when the INTEGER
PRIMARY KEY column is not among the inserted columns: one more than the
largest rowid in use (1 on an empty table). -/
def nextRowId (rows : List Row) : Int :=
  (rows.foldl (fun m r => max m (pkInt (r.getD 0 Value.none))) 0) + 1

/-- Models the sqlite3 engine executing the INSERT statements this builder
emits: unknown table or column is an operational error; the INTEGER PRIMARY
KEY (first column) is assigned `nextRowId` when not supplied and must be an
integer when supplied; the new row is laid out in the table's physical
column order, unsupplied columns NULL; returns `lastrowid` and the updated
store. -/
def execInsert (st : Store) (s : InsertStmt) : Except String (Int × Store) :=
  match st.tables.lookup s.table with
  | Option.none => Except.error ("no such table: " ++ s.table)
  | Option.some t =>
    if s.columns.all t.cols.contains then
      let pairs := s.columns.zip s.params
      match t.cols with
      | [] => Except.error "empty schema"
      | pk :: rest =>
        match pairs.lookup pk with
        | Option.some (Value.int v) =>
          let newRow := Value.int v ::
            rest.map (fun c => ((pairs.lookup c).getD Value.none))
          Except.ok (v, ⟨st.tables.map (fun p =>
            if p.fst = s.table then (p.fst, ⟨t.cols, t.rows ++ [newRow]⟩) else p)⟩)
        | Option.some _ => Except.error "datatype mismatch"
        | Option.none =>
          let newId := nextRowId t.rows
          let newRow := Value.int newId ::
            rest.map (fun c => ((pairs.lookup c).getD Value.none))
          Except.ok (newId, ⟨st.tables.map (fun p =>
            if p.fst = s.table then (p.fst, ⟨t.cols, t.rows ++ [newRow]⟩) else p)⟩)
    else Except.error "no such column"

/-- `SQLiteManager.select` run against the concrete store model: build the
statement, then execute it. -/
def selectStore (st : Store) (table : Value) (options : List String)
    (filters : List (String × Value)) : Except String (List Row) :=
  match selectBuild table options filters with
  | Except.error m => Except.error m
  | Except.ok s => execSelect st s

/-- `SQLiteManager.insert` run against the concrete store model: build the
statement, then execute it, returning `lastrowid` and the updated store. -/
def insertStore (st : Store) (table : Value) (data : List (String × Value)) :
    Except String (Int × Store) :=
  match insertBuild table data with
  | Except.error m => Except.error m
  | Except.ok s => execInsert st s

/-- An observable action on the sqlite3 connection/cursor: a statement
execution (with its bound parameters), a rollback, or a commit. -/
inductive ConnAction where
  | exec (query : String) (params : List Value)
  | rollback
  | commit
  deriving DecidableEq, Repr

/-- The error a manager operation propagates: a `ValueError` from the
validation phase, or the original exception object re-raised after a failed
execution (the type parameter `ε` keeps the execution error abstract, so the
operation can only pass it through unmodified). -/
inductive OpError (ε : Type) where
  | valueError (msg : String)
  | execFail (e : ε)
  deriving DecidableEq, Repr

/-- An abstract sqlite3 cursor for the mutation operations: given the query
text and the bound parameter tuple, either fails with an exception `e : ε` or
succeeds returning an integer (`lastrowid` for INSERT, `rowcount` for
UPDATE/DELETE). -/
abbrev Cursor (ε : Type) := String → List Value → Except ε Int

/-- `SQLiteManager.insert` over an abstract cursor, with the trace of
connection/cursor actions it performs: validation errors produce no action;
on execution failure the connection is rolled back and the original
exception re-raised; on success `lastrowid` is returned. -/
def insertOp {ε : Type} (cursor : Cursor ε) (table : Value)
    (data : List (String × Value)) : Except (OpError ε) Int × List ConnAction :=
  match insertBuild table data with
  | Except.error m => (Except.error (OpError.valueError m), [])
  | Except.ok s =>
    match cursor s.toSQL s.params with
    | Except.error e =>
      (Except.error (OpError.execFail e), [ConnAction.exec s.toSQL s.params, ConnAction.rollback])
    | Except.ok rowid =>
      (Except.ok rowid, [ConnAction.exec s.toSQL s.params])

/-- `SQLiteManager.update` over an abstract cursor, with its action trace. -/
def updateOp {ε : Type} (cursor : Cursor ε) (table : Value)
    (data : Option (List (String × Value))) (filters : List (String × Value)) :
    Except (OpError ε) Int × List ConnAction :=
  match updateBuild table data filters with
  | Except.error m => (Except.error (OpError.valueError m), [])
  | Except.ok s =>
    match cursor s.toSQL s.params with
    | Except.error e =>
      (Except.error (OpError.execFail e), [ConnAction.exec s.toSQL s.params, ConnAction.rollback])
    | Except.ok n =>
      (Except.ok n, [ConnAction.exec s.toSQL s.params])

/-- `SQLiteManager.delete` over an abstract cursor, with its action trace. -/
def deleteOp {ε : Type} (cursor : Cursor ε) (table : Value)
    (filters : List (String × Value)) : Except (OpError ε) Int × List ConnAction :=
  match deleteBuild table filters with
  | Except.error m => (Except.error (OpError.valueError m), [])
  | Except.ok s =>
    match cursor s.toSQL s.params with
    | Except.error e =>
      (Except.error (OpError.execFail e), [ConnAction.exec s.toSQL s.params, ConnAction.rollback])
    | Except.ok n =>
      (Except.ok n, [ConnAction.exec s.toSQL s.params])

/-- `SQLiteManager.__exit__`: given the exception type active on leaving the
scoped block (`Option.none` when the block succeeded), the sequence of
connection actions performed — `if exc_type is not None: rollback`, then an
unconditional `commit`. -/
def exitActions (excType : Option String) : List ConnAction :=
  (if excType.isSome then [ConnAction.rollback] else []) ++ [ConnAction.commit]

/-- The `users` row shape mapped positionally by the routers:
`User(id=result[0], name=result[1], email=result[2])`. -/
structure UserRec where
  id : Value
  name : Value
  email : Value
  deriving DecidableEq, Repr

/-- The `passwords` row shape mapped positionally by the routers:
`Password(id=result[0], password_hash=result[1], user_id=result[2])`. -/
structure PasswordRec where
  id : Value
  passwordHash : Value
  userId : Value
  deriving DecidableEq, Repr

/-- Outcome of a get-by-id endpoint: the mapped record, an
`HTTPException(status, detail)`, or an uncaught store-level exception
(propagated, since only `IndexError` is caught). -/
inductive EndpointResult (α : Type) where
  | ok (a : α)
  | httpError (status : Nat) (detail : String)
  | uncaught (msg : String)
  deriving DecidableEq, Repr

/-- `get_user` from `user_router.py`: `db.select(table='users', id=user_id)`,
take element 0 (an empty result raises `IndexError`, caught and turned into
`HTTPException(404, 'User not found')`), map the row positionally. -/
def get_user (st : Store) (user_id : Int) : EndpointResult UserRec :=
  match selectStore st (Value.str "users") ["*"] [("id", Value.int user_id)] with
  | Except.error m => EndpointResult.uncaught m
  | Except.ok [] => EndpointResult.httpError 404 "User not found"
  | Except.ok (r :: _) =>
    EndpointResult.ok ⟨r.getD 0 Value.none, r.getD 1 Value.none, r.getD 2 Value.none⟩

/-- `get_password` from `password_router.py`: same shape over the
`passwords` table, with detail `'password not found'`. -/
def get_password (st : Store) (password_id : Int) : EndpointResult PasswordRec :=
  match selectStore st (Value.str "passwords") ["*"] [("id", Value.int password_id)] with
  | Except.error m => EndpointResult.uncaught m
  | Except.ok [] => EndpointResult.httpError 404 "password not found"
  | Except.ok (r :: _) =>
    EndpointResult.ok ⟨r.getD 0 Value.none, r.getD 1 Value.none, r.getD 2 Value.none⟩

/-! ### Characterizations of the statement-building phases -/

theorem selectBuild_eq_ok (table : Value) (options : List String)
    (filters : List (String × Value)) (s : SelectStmt) :
    selectBuild table options filters = Except.ok s ↔
      (table.falsy = false ∧
       s = ⟨table.pyStr, options, filters.map Prod.fst, filters.map Prod.snd⟩) := by
  unfold selectBuild
  cases h : table.falsy <;> simp [h, eq_comm]

theorem insertBuild_eq_ok (table : Value) (data : List (String × Value))
    (s : InsertStmt) :
    insertBuild table data = Except.ok s ↔
      (table.falsy = false ∧ data.isEmpty = false ∧
       s = ⟨table.pyStr, data.map Prod.fst, data.map Prod.snd⟩) := by
  unfold insertBuild
  cases h : table.falsy <;> cases hd : data.isEmpty <;> simp [h, hd, eq_comm]

theorem updateBuild_eq_ok (table : Value) (d filters : List (String × Value))
    (s : UpdateStmt) :
    updateBuild table (Option.some d) filters = Except.ok s ↔
      (table.falsy = false ∧ d.isEmpty = false ∧ filters.isEmpty = false ∧
       s = ⟨table.pyStr, d.map Prod.fst, filters.map Prod.fst,
            d.map Prod.snd ++ filters.map Prod.snd⟩) := by
  unfold updateBuild
  cases h : table.falsy <;> cases hd : d.isEmpty <;> cases hf : filters.isEmpty <;>
    simp [h, hd, hf, eq_comm]

theorem deleteBuild_eq_ok (table : Value) (filters : List (String × Value))
    (s : DeleteStmt) :
    deleteBuild table filters = Except.ok s ↔
      (table.falsy = false ∧ filters.isEmpty = false ∧
       s = ⟨table.pyStr, filters.map Prod.fst, filters.map Prod.snd⟩) := by
  unfold deleteBuild
  cases h : table.falsy <;> cases hf : filters.isEmpty <;> simp [h, hf, eq_comm]

/-! ### C2: scoped-connection exit behaviour -/

/-- C2: On exit of the scoped connection block, if the block raised an
exception the connection is first rolled back and then a commit is issued;
if the block succeeded only a commit is issued — a commit on every exit
path, a rollback exactly when an exception occurred, in that order. -/
theorem exit_rollback_then_commit :
    (∀ excType : String, exitActions (Option.some excType) =
      [ConnAction.rollback, ConnAction.commit]) ∧
    exitActions Option.none = [ConnAction.commit] :=
  ⟨fun _ => rfl, rfl⟩

/-! ### C3: update parameter ordering -/

/-- C3: The parameter tuple `update` passes to the store is the `data`
values in `data`'s key order followed by the filter values in the filters'
key order; the first cursor action of `updateOp` binds exactly that tuple.
In particular for `data={"a":1,"b":2}`, `filters={"id":5}` it is `(1, 2, 5)`
(see the witness). -/
theorem updateOp_trace_head {ε : Type} (cursor : Cursor ε) (table : Value)
    (d : Option (List (String × Value))) (filters : List (String × Value))
    (s : UpdateStmt) (h : updateBuild table d filters = Except.ok s) :
    (updateOp cursor table d filters).snd.head? =
      Option.some (ConnAction.exec s.toSQL s.params) := by
  simp only [updateOp, h]
  cases cursor s.toSQL s.params <;> rfl

theorem update_param_order {ε : Type} (cursor : Cursor ε) (table : Value)
    (d filters : List (String × Value)) (s : UpdateStmt)
    (h : updateBuild table (Option.some d) filters = Except.ok s) :
    s.params = d.map Prod.snd ++ filters.map Prod.snd ∧
    (updateOp cursor table (Option.some d) filters).snd.head? =
      Option.some (ConnAction.exec s.toSQL (d.map Prod.snd ++ filters.map Prod.snd)) := by
  have hc := (updateBuild_eq_ok table d filters s).mp h
  have hp : s.params = d.map Prod.snd ++ filters.map Prod.snd := by rw [hc.2.2.2]
  refine ⟨hp, ?_⟩
  rw [← hp]
  exact updateOp_trace_head cursor table (Option.some d) filters s h

/-- Witness for C3 at `table="t"`, `data={"a":1,"b":2}`, `filters={"id":5}`:
the bound parameter sequence is exactly `(1, 2, 5)`. -/
theorem update_param_order_witness :
    (let s : UpdateStmt := ⟨"t", ["a", "b"], ["id"],
        [Value.int 1, Value.int 2, Value.int 5]⟩
     s.params = [("a", Value.int 1), ("b", Value.int 2)].map Prod.snd ++
        [("id", Value.int 5)].map Prod.snd ∧
     (updateOp ((fun _ _ => Except.ok (1 : Int)) : Cursor String) (Value.str "t")
        (Option.some [("a", Value.int 1), ("b", Value.int 2)])
        [("id", Value.int 5)]).snd.head? =
      Option.some (ConnAction.exec s.toSQL
        ([("a", Value.int 1), ("b", Value.int 2)].map Prod.snd ++
         [("id", Value.int 5)].map Prod.snd))) :=
  update_param_order ((fun _ _ => Except.ok (1 : Int)) : Cursor String) (Value.str "t")
    [("a", Value.int 1), ("b", Value.int 2)] [("id", Value.int 5)]
    ⟨"t", ["a", "b"], ["id"], [Value.int 1, Value.int 2, Value.int 5]⟩ (by rfl)

/-! ### C10: the required-table check tests falsiness, not absence -/

/-- C10: In all four operations the `table` check is `if not table:`, so any
falsy value of `table` — the pop default `None` (omitted argument), the empty
string, or `0` — raises the same table-required validation error of that
operation, before any statement is built or executed (the mutation traces
are empty); `None`, `""` and `0` are indeed all falsy. -/
theorem table_falsiness_check {ε : Type} (cursor : Cursor ε) (v : Value)
    (hv : v.falsy = true) (options : List String)
    (data filters : List (String × Value)) (d : Option (List (String × Value))) :
    selectBuild v options filters = Except.error selectTableMsg ∧
    insertBuild v data = Except.error insertTableMsg ∧
    updateBuild v d filters = Except.error updateTableMsg ∧
    deleteBuild v filters = Except.error deleteTableMsg ∧
    (insertOp cursor v data).snd = [] ∧
    (updateOp cursor v d filters).snd = [] ∧
    (deleteOp cursor v filters).snd = [] ∧
    (Value.str "").falsy = true ∧ Value.none.falsy = true ∧
    (Value.int 0).falsy = true := by
  refine ⟨?_, ?_, ?_, ?_, ?_, ?_, ?_, rfl, rfl, rfl⟩ <;>
    simp [selectBuild, insertBuild, updateBuild, deleteBuild,
      insertOp, updateOp, deleteOp, hv]

/-- Witness for C10 at `table=""` (empty string), with a never-failing
cursor, `data={"a":1}`, `filters={"id":5}`. -/
theorem table_falsiness_check_witness :
    selectBuild (Value.str "") ["*"] [("id", Value.int 5)] =
      Except.error selectTableMsg ∧
    insertBuild (Value.str "") [("a", Value.int 1)] = Except.error insertTableMsg ∧
    updateBuild (Value.str "") (Option.some [("a", Value.int 1)])
      [("id", Value.int 5)] = Except.error updateTableMsg ∧
    deleteBuild (Value.str "") [("id", Value.int 5)] =
      Except.error deleteTableMsg ∧
    (insertOp ((fun _ _ => Except.ok (1 : Int)) : Cursor String) (Value.str "")
      [("a", Value.int 1)]).snd = [] ∧
    (updateOp ((fun _ _ => Except.ok (1 : Int)) : Cursor String) (Value.str "")
      (Option.some [("a", Value.int 1)]) [("id", Value.int 5)]).snd = [] ∧
    (deleteOp ((fun _ _ => Except.ok (1 : Int)) : Cursor String) (Value.str "")
      [("id", Value.int 5)]).snd = [] ∧
    (Value.str "").falsy = true ∧ Value.none.falsy = true ∧
    (Value.int 0).falsy = true :=
  table_falsiness_check ((fun _ _ => Except.ok (1 : Int)) : Cursor String)
    (Value.str "") (by rfl) ["*"] [("a", Value.int 1)] [("id", Value.int 5)]
    (Option.some [("a", Value.int 1)])

/-! ### C1: update/delete with empty filters -/

/-- C1 (counterexample to the claim as stated): the claim quantifies over
*every* table value, but with the falsy table value `""` (and non-empty
data) `update`/`delete` with empty filters raise the table-required
validation error, not the unsafe-operation error — the two messages
differ. -/
theorem empty_filters_falsy_table_cex :
    updateBuild (Value.str "") (Option.some [("a", Value.int 1)]) [] =
      Except.error updateTableMsg ∧
    deleteBuild (Value.str "") [] = Except.error deleteTableMsg ∧
    updateTableMsg ≠ updateNoWhereMsg ∧
    deleteTableMsg ≠ deleteNoWhereMsg := by
  refine ⟨rfl, rfl, ?_, ?_⟩ <;> decide

/-- C1 (amended): for every *truthy* table value and every non-empty data
mapping, `update` and `delete` with an empty filter mapping raise the
unsafe-operation validation error, the cursor is never invoked and no
connection action is performed (the store is untouched). -/
theorem update_delete_empty_filters_unsafe {ε : Type} (cursor : Cursor ε)
    (table : Value) (ht : table.falsy = false)
    (data : List (String × Value)) (hd : data ≠ []) :
    updateOp cursor table (Option.some data) [] =
      (Except.error (OpError.valueError updateNoWhereMsg), []) ∧
    deleteOp cursor table [] =
      (Except.error (OpError.valueError deleteNoWhereMsg), []) := by
  constructor <;>
    simp [updateOp, deleteOp, updateBuild, deleteBuild, ht,
      List.isEmpty_iff, hd]

/-- Witness for the amended C1 at `table="users"`, `data={"a":1}`. -/
theorem update_delete_empty_filters_unsafe_witness :
    updateOp ((fun _ _ => Except.ok (1 : Int)) : Cursor String)
      (Value.str "users") (Option.some [("a", Value.int 1)]) [] =
      (Except.error (OpError.valueError updateNoWhereMsg), []) ∧
    deleteOp ((fun _ _ => Except.ok (1 : Int)) : Cursor String)
      (Value.str "users") [] =
      (Except.error (OpError.valueError deleteNoWhereMsg), []) :=
  update_delete_empty_filters_unsafe
    ((fun _ _ => Except.ok (1 : Int)) : Cursor String)
    (Value.str "users") (by rfl) [("a", Value.int 1)] (by simp)

/-! ### C7: insert validation and statement shape -/

/-- C7: For every table value, `insert` with no data fields raises a
validation error (`ValueError`) and never issues a statement to the store;
with a truthy table and non-empty data the built statement's column list is
the data keys, its bound values are the data values in matching order, and
on successful execution the newly generated row identifier (the cursor's
`lastrowid`) is returned. -/
theorem insert_no_data_and_build {ε : Type} (cursor : Cursor ε)
    (table : Value) (ht : table.falsy = false)
    (data : List (String × Value)) (hd : data ≠ []) :
    (∀ t : Value, ∃ m : String,
      insertOp cursor t [] = (Except.error (OpError.valueError m), [])) ∧
    (∃ s : InsertStmt, insertBuild table data = Except.ok s ∧
      s.columns = data.map Prod.fst ∧ s.params = data.map Prod.snd ∧
      ∀ rowid : Int, cursor s.toSQL s.params = Except.ok rowid →
        insertOp cursor table data =
          (Except.ok rowid, [ConnAction.exec s.toSQL s.params])) := by
  constructor
  · intro t
    cases htf : t.falsy
    · exact ⟨insertNoDataMsg, by simp [insertOp, insertBuild, htf]⟩
    · exact ⟨insertTableMsg, by simp [insertOp, insertBuild, htf]⟩
  · refine ⟨⟨table.pyStr, data.map Prod.fst, data.map Prod.snd⟩, ?_, rfl, rfl, ?_⟩
    · exact (insertBuild_eq_ok table data _).mpr
        ⟨ht, by simp [List.isEmpty_iff, hd], rfl⟩
    · intro rowid hcur
      have hb : insertBuild table data =
          Except.ok ⟨table.pyStr, data.map Prod.fst, data.map Prod.snd⟩ :=
        (insertBuild_eq_ok table data _).mpr
          ⟨ht, by simp [List.isEmpty_iff, hd], rfl⟩
      simp [insertOp, hb, hcur]

/-- Witness for C7 at `table="users"`, `data={"name":"Alice"}`, with a
cursor whose `lastrowid` is 7. -/
theorem insert_no_data_and_build_witness :
    (∀ t : Value, ∃ m : String,
      insertOp ((fun _ _ => Except.ok (7 : Int)) : Cursor String) t [] =
        (Except.error (OpError.valueError m), [])) ∧
    (∃ s : InsertStmt,
      insertBuild (Value.str "users") [("name", Value.str "Alice")] =
        Except.ok s ∧
      s.columns = [("name", Value.str "Alice")].map Prod.fst ∧
      s.params = [("name", Value.str "Alice")].map Prod.snd ∧
      ∀ rowid : Int,
        ((fun _ _ => Except.ok (7 : Int)) : Cursor String) s.toSQL s.params =
          Except.ok rowid →
        insertOp ((fun _ _ => Except.ok (7 : Int)) : Cursor String)
          (Value.str "users") [("name", Value.str "Alice")] =
          (Except.ok rowid, [ConnAction.exec s.toSQL s.params])) :=
  insert_no_data_and_build ((fun _ _ => Except.ok (7 : Int)) : Cursor String)
    (Value.str "users") (by rfl) [("name", Value.str "Alice")] (by simp)

/-! ### C4: select statement text independent of filter values -/

/-- C4: For a fixed table, fixed options and fixed filter key list, the
SELECT statement text is identical for every choice of filter values: the
values appear only in the bound-parameter list (one WHERE key per filter,
the values in the params tuple), so a filter value with quotes or SQL
metacharacters cannot alter the statement structure. -/
theorem select_sql_filter_value_independence (table : Value)
    (options : List String) (fs1 fs2 : List (String × Value))
    (hk : fs1.map Prod.fst = fs2.map Prod.fst) (s1 s2 : SelectStmt)
    (h1 : selectBuild table options fs1 = Except.ok s1)
    (h2 : selectBuild table options fs2 = Except.ok s2) :
    s1.toSQL = s2.toSQL ∧ s1.params = fs1.map Prod.snd ∧
    s2.params = fs2.map Prod.snd ∧ s1.whereKeys.length = fs1.length := by
  have hc1 := (selectBuild_eq_ok table options fs1 s1).mp h1
  have hc2 := (selectBuild_eq_ok table options fs2 s2).mp h2
  rw [hc1.2, hc2.2]
  refine ⟨?_, rfl, rfl, by simp⟩
  simp [SelectStmt.toSQL, hk]

/-- Witness for C4: filters `{"name": "x; DROP TABLE users;--"}` versus
`{"name": "Alice"}` over table `users` produce the same statement text. -/
theorem select_sql_filter_value_independence_witness :
    (let s1 : SelectStmt := ⟨"users", ["*"], ["name"],
        [Value.str "x; DROP TABLE users;--"]⟩
     let s2 : SelectStmt := ⟨"users", ["*"], ["name"], [Value.str "Alice"]⟩
     s1.toSQL = s2.toSQL ∧
     s1.params = [("name", Value.str "x; DROP TABLE users;--")].map Prod.snd ∧
     s2.params = [("name", Value.str "Alice")].map Prod.snd ∧
     s1.whereKeys.length =
       [("name", Value.str "x; DROP TABLE users;--")].length) :=
  select_sql_filter_value_independence (Value.str "users") ["*"]
    [("name", Value.str "x; DROP TABLE users;--")]
    [("name", Value.str "Alice")] (by rfl)
    ⟨"users", ["*"], ["name"], [Value.str "x; DROP TABLE users;--"]⟩
    ⟨"users", ["*"], ["name"], [Value.str "Alice"]⟩ (by rfl) (by rfl)

/-! ### C6: execution failure rolls back, then re-raises the original error -/

/-- C6: When the store rejects the executed statement of `insert`, `update`
or `delete`, the operation rolls the connection back (the trace after the
execution attempt is exactly a rollback) and re-raises the very error object
`e` the cursor produced — unmodified, with no retry (no further cursor
action follows). -/
theorem mutation_exec_error_rollback_reraise {ε : Type} (cursor : Cursor ε)
    (e : ε) (table : Value) (data : List (String × Value))
    (d : Option (List (String × Value))) (filters : List (String × Value)) :
    (∀ s : InsertStmt, insertBuild table data = Except.ok s →
      cursor s.toSQL s.params = Except.error e →
      insertOp cursor table data = (Except.error (OpError.execFail e),
        [ConnAction.exec s.toSQL s.params, ConnAction.rollback])) ∧
    (∀ s : UpdateStmt, updateBuild table d filters = Except.ok s →
      cursor s.toSQL s.params = Except.error e →
      updateOp cursor table d filters = (Except.error (OpError.execFail e),
        [ConnAction.exec s.toSQL s.params, ConnAction.rollback])) ∧
    (∀ s : DeleteStmt, deleteBuild table filters = Except.ok s →
      cursor s.toSQL s.params = Except.error e →
      deleteOp cursor table filters = (Except.error (OpError.execFail e),
        [ConnAction.exec s.toSQL s.params, ConnAction.rollback])) := by
  refine ⟨fun s hb hc => ?_, fun s hb hc => ?_, fun s hb hc => ?_⟩ <;>
    simp [insertOp, updateOp, deleteOp, hb, hc]

/-- Witness for C6: a cursor that always fails with the exception
`"UNIQUE constraint failed"`, over `table="t"`, `data={"a":1}`,
`filters={"id":5}`. -/
theorem mutation_exec_error_rollback_reraise_witness :
    (insertOp ((fun _ _ => Except.error "UNIQUE constraint failed") : Cursor String)
      (Value.str "t") [("a", Value.int 1)] =
      (Except.error (OpError.execFail "UNIQUE constraint failed"),
        [ConnAction.exec (InsertStmt.toSQL ⟨"t", ["a"], [Value.int 1]⟩)
          [Value.int 1], ConnAction.rollback])) ∧
    (updateOp ((fun _ _ => Except.error "UNIQUE constraint failed") : Cursor String)
      (Value.str "t") (Option.some [("a", Value.int 1)]) [("id", Value.int 5)] =
      (Except.error (OpError.execFail "UNIQUE constraint failed"),
        [ConnAction.exec (UpdateStmt.toSQL ⟨"t", ["a"], ["id"], [Value.int 1, Value.int 5]⟩)
          [Value.int 1, Value.int 5], ConnAction.rollback])) ∧
    (deleteOp ((fun _ _ => Except.error "UNIQUE constraint failed") : Cursor String)
      (Value.str "t") [("id", Value.int 5)] =
      (Except.error (OpError.execFail "UNIQUE constraint failed"),
        [ConnAction.exec (DeleteStmt.toSQL ⟨"t", ["id"], [Value.int 5]⟩)
          [Value.int 5], ConnAction.rollback])) := by
  have h := mutation_exec_error_rollback_reraise
    ((fun _ _ => Except.error "UNIQUE constraint failed") : Cursor String)
    "UNIQUE constraint failed" (Value.str "t") [("a", Value.int 1)]
    (Option.some [("a", Value.int 1)]) [("id", Value.int 5)]
  exact ⟨h.1 ⟨"t", ["a"], [Value.int 1]⟩ (by rfl) (by rfl),
         h.2.1 ⟨"t", ["a"], ["id"], [Value.int 1, Value.int 5]⟩ (by rfl) (by rfl),
         h.2.2 ⟨"t", ["id"], [Value.int 5]⟩ (by rfl) (by rfl)⟩

/-! ### C5: select AND semantics over the store model -/

theorem rowMatches_iff (cols : List String) (conds : List (String × Value))
    (r : Row) :
    rowMatches cols conds r = true ↔
      ∀ kv ∈ conds, colValue cols r kv.fst = Option.some kv.snd := by
  unfold rowMatches
  rw [List.all_eq_true]
  constructor
  · intro h kv hkv
    have hb := h kv hkv
    cases hcv : colValue cols r kv.fst with
    | none => rw [hcv] at hb; simp at hb
    | some v => rw [hcv] at hb; simp at hb; rw [hb]
  · intro h kv hkv
    rw [h kv hkv]
    simp

theorem selectStore_eq_filter (st : Store) (tname : String) (htn : tname ≠ "")
    (t : DBTable) (hlook : st.tables.lookup tname = Option.some t)
    (filters : List (String × Value))
    (hkeys : filters.all (fun c => t.cols.contains c.fst) = true) :
    selectStore st (Value.str tname) ["*"] filters =
      Except.ok (t.rows.filter (rowMatches t.cols filters)) := by
  have hfalsy : (Value.str tname).falsy = false := by
    simp [Value.falsy, htn]
  have hbuild : selectBuild (Value.str tname) ["*"] filters =
      Except.ok ⟨tname, ["*"], filters.map Prod.fst, filters.map Prod.snd⟩ :=
    (selectBuild_eq_ok _ _ _ _).mpr ⟨hfalsy, rfl⟩
  have hzip : (filters.map Prod.fst).zip (filters.map Prod.snd) = filters :=
    (List.zip_of_prod rfl rfl).symm
  simp only [selectStore, hbuild, execSelect, hlook, hzip, hkeys, if_true]

/-- C5: Over a well-formed store, `select` with a non-empty filter mapping
returns exactly the rows of the table that satisfy *every* filter equality
simultaneously (AND semantics: membership in the result is equivalent to the
conjunction of all equalities), returning the empty sequence rather than an
error when no row matches; and `select` with no filters on an empty table
returns the empty sequence, not an error. -/
theorem select_and_semantics (st : Store) (tname : String) (htn : tname ≠ "")
    (t : DBTable) (hlook : st.tables.lookup tname = Option.some t) :
    (∀ filters : List (String × Value), filters ≠ [] →
      (∀ k ∈ filters.map Prod.fst, t.cols.contains k = true) →
      ∃ rows : List Row,
        selectStore st (Value.str tname) ["*"] filters = Except.ok rows ∧
        rows = t.rows.filter (rowMatches t.cols filters) ∧
        (∀ r : Row, r ∈ rows ↔ r ∈ t.rows ∧
          ∀ kv ∈ filters, colValue t.cols r kv.fst = Option.some kv.snd) ∧
        ((∀ r ∈ t.rows, rowMatches t.cols filters r = false) → rows = [])) ∧
    (t.rows = [] →
      selectStore st (Value.str tname) ["*"] [] = Except.ok []) := by
  constructor
  · intro filters _ hkeys
    have hall : filters.all (fun c => t.cols.contains c.fst) = true := by
      rw [List.all_eq_true]
      exact fun c hc => hkeys c.fst (List.mem_map_of_mem Prod.fst hc)
    refine ⟨t.rows.filter (rowMatches t.cols filters),
      selectStore_eq_filter st tname htn t hlook filters hall, rfl, ?_, ?_⟩
    · intro r
      rw [List.mem_filter, rowMatches_iff]
    · intro hnone
      rw [List.filter_eq_nil_iff]
      intro r hr
      rw [hnone r hr]
      simp
  · intro hrows
    have h := selectStore_eq_filter st tname htn t hlook [] (by rfl)
    rw [hrows] at h
    simpa using h

/-- A concrete store for the witnesses: a `users` table with two rows and an
empty `passwords` table. -/
def usersTable : DBTable :=
  ⟨["id", "name", "email"],
   [[Value.int 1, Value.str "Bob", Value.str "b@x.com"],
    [Value.int 2, Value.str "Ana", Value.str "ana@x.com"]]⟩

/-- Companion table for the witnesses (empty `passwords`). -/
def passwordsTable : DBTable :=
  ⟨["id", "password_hash", "user_id"], []⟩

/-- The store used by the concrete witnesses. -/
def demoStore : Store :=
  ⟨[("users", usersTable), ("passwords", passwordsTable)]⟩

/-- Witness for C5 over `demoStore` with the filter `{"name": "Ana"}`. -/
theorem select_and_semantics_witness :
    ∃ rows : List Row,
      selectStore demoStore (Value.str "users") ["*"]
        [("name", Value.str "Ana")] = Except.ok rows ∧
      rows = usersTable.rows.filter
        (rowMatches usersTable.cols [("name", Value.str "Ana")]) ∧
      (∀ r : Row, r ∈ rows ↔ r ∈ usersTable.rows ∧
        ∀ kv ∈ [("name", Value.str "Ana")],
          colValue usersTable.cols r kv.fst = Option.some kv.snd) ∧
      ((∀ r ∈ usersTable.rows,
          rowMatches usersTable.cols [("name", Value.str "Ana")] r = false) →
        rows = []) :=
  (select_and_semantics demoStore "users" (by decide) usersTable (by rfl)).1
    [("name", Value.str "Ana")] (by simp) (by decide)

/-! ### C8: insert/select round-trip -/

theorem lookup_eq_none_of_not_mem (l : List (String × Value)) (k : String)
    (h : k ∉ l.map Prod.fst) : l.lookup k = Option.none := by
  induction l with
  | nil => rfl
  | cons hd tl ih =>
    simp only [List.map_cons, List.mem_cons, not_or] at h
    have hne : (k == hd.fst) = false := beq_eq_false_iff_ne.mpr h.1
    simp [List.lookup, hne, ih h.2]

theorem map_lookup_values (l : List (String × Value))
    (h : (l.map Prod.fst).Nodup) :
    (l.map Prod.fst).map (fun k => (l.lookup k).getD Value.none) =
      l.map Prod.snd := by
  induction l with
  | nil => rfl
  | cons hd tl ih =>
    simp only [List.map_cons, List.nodup_cons] at h ⊢
    have h1 : ((hd :: tl).lookup hd.fst).getD Value.none = hd.snd := by
      simp [List.lookup]
    have hrec : (tl.map Prod.fst).map
        (fun k => ((hd :: tl).lookup k).getD Value.none) =
        (tl.map Prod.fst).map (fun k => (tl.lookup k).getD Value.none) := by
      apply List.map_congr_left
      intro k hk
      have hne : (k == hd.fst) = false := by
        rw [beq_eq_false_iff_ne]
        intro he
        exact h.1 (he ▸ hk)
      simp [List.lookup, hne]
    rw [h1, hrec, ih h.2]

theorem le_foldl_max_init (rows : List Row) (a : Int) :
    a ≤ rows.foldl (fun m r => max m (pkInt (r.getD 0 Value.none))) a := by
  induction rows generalizing a with
  | nil => exact le_refl a
  | cons hd tl ih =>
    exact le_trans (le_max_left a (pkInt (hd.getD 0 Value.none))) (ih _)

theorem mem_le_foldl_max (rows : List Row) (a : Int) (r : Row) (hr : r ∈ rows) :
    pkInt (r.getD 0 Value.none) ≤
      rows.foldl (fun m r => max m (pkInt (r.getD 0 Value.none))) a := by
  induction rows generalizing a with
  | nil => cases hr
  | cons hd tl ih =>
    rcases List.mem_cons.mp hr with h | h
    · subst h
      exact le_trans (le_max_right a (pkInt (r.getD 0 Value.none)))
        (le_foldl_max_init tl _)
    · exact ih _ h

theorem nextRowId_pos (rows : List Row) : 0 < nextRowId rows := by
  unfold nextRowId
  have := le_foldl_max_init rows 0
  omega

theorem old_row_pk_ne_nextRowId (rows : List Row) (r : Row) (hr : r ∈ rows) :
    r.getD 0 Value.none ≠ Value.int (nextRowId rows) := by
  intro he
  have hle := mem_le_foldl_max rows 0 r hr
  rw [he] at hle
  have hpk : pkInt (Value.int (nextRowId rows)) = nextRowId rows := rfl
  rw [hpk] at hle
  unfold nextRowId at hle
  omega

theorem lookup_map_set (l : List (String × DBTable)) (k : String)
    (t t' : DBTable) (h : l.lookup k = Option.some t) :
    (l.map (fun p => if p.fst = k then (p.fst, t') else p)).lookup k =
      Option.some t' := by
  induction l with
  | nil => simp [List.lookup] at h
  | cons hd tl ih =>
    rw [List.map_cons]
    by_cases hk : hd.fst = k
    · rw [if_pos hk]
      have hbe : (k == hd.fst) = true := beq_iff_eq.mpr hk.symm
      simp [List.lookup, hbe]
    · rw [if_neg hk]
      have hne : (k == hd.fst) = false :=
        beq_eq_false_iff_ne.mpr (fun he => hk he.symm)
      have h' : tl.lookup k = Option.some t := by
        simpa [List.lookup, hne] using h
      simp [List.lookup, hne, ih h']

/-- C8: Round-trip.  For every table whose schema is an INTEGER PRIMARY KEY
`id` followed by the data columns, and every non-empty data mapping over
exactly those columns, `insert` succeeds returning a positive identifier,
and `select` on the same table filtered by that identifier returns exactly
one row whose values are the inserted data (prefixed by the new id). -/
theorem insert_select_roundtrip (st : Store) (tname : String)
    (htn : tname ≠ "") (t : DBTable)
    (hlook : st.tables.lookup tname = Option.some t)
    (dcols : List String) (hcols : t.cols = "id" :: dcols)
    (hid : "id" ∉ dcols) (hnd : dcols.Nodup)
    (data : List (String × Value)) (hdata : data.map Prod.fst = dcols)
    (hdne : data ≠ []) :
    ∃ (newId : Int) (st2 : Store),
      insertStore st (Value.str tname) data = Except.ok (newId, st2) ∧
      0 < newId ∧
      selectStore st2 (Value.str tname) ["*"] [("id", Value.int newId)] =
        Except.ok [Value.int newId :: data.map Prod.snd] := by
  have hfalsy : (Value.str tname).falsy = false := by
    simp [Value.falsy, htn]
  have hbuild : insertBuild (Value.str tname) data =
      Except.ok ⟨tname, data.map Prod.fst, data.map Prod.snd⟩ :=
    (insertBuild_eq_ok _ _ _).mpr
      ⟨hfalsy, by simp [List.isEmpty_iff, hdne], rfl⟩
  have hzip : (data.map Prod.fst).zip (data.map Prod.snd) = data :=
    (List.zip_of_prod rfl rfl).symm
  have hgate : (data.map Prod.fst).all t.cols.contains = true := by
    rw [List.all_eq_true]
    intro c hc
    rw [List.elem_iff, hcols]
    exact List.mem_cons_of_mem _ (hdata ▸ hc)
  have hlookid : data.lookup "id" = Option.none := by
    apply lookup_eq_none_of_not_mem
    rw [hdata]
    exact hid
  have hrow : dcols.map (fun c => (data.lookup c).getD Value.none) =
      data.map Prod.snd := by
    rw [← hdata]
    exact map_lookup_values data (by rw [hdata]; exact hnd)
  refine ⟨nextRowId t.rows,
    ⟨st.tables.map (fun p => if p.fst = tname then
      (p.fst, ⟨t.cols, t.rows ++
        [Value.int (nextRowId t.rows) :: data.map Prod.snd]⟩) else p)⟩,
    ?_, nextRowId_pos t.rows, ?_⟩
  · have hgate' : (data.map Prod.fst).all ("id" :: dcols).contains = true :=
      hcols ▸ hgate
    simp only [insertStore, hbuild, execInsert, hlook, hgate, hgate', if_true,
      hzip, hcols, hlookid, hrow]
  · have hlook2 : (Store.mk (st.tables.map (fun p => if p.fst = tname then
        (p.fst, ⟨t.cols, t.rows ++
          [Value.int (nextRowId t.rows) :: data.map Prod.snd]⟩) else p))).tables.lookup
          tname = Option.some ⟨t.cols, t.rows ++
            [Value.int (nextRowId t.rows) :: data.map Prod.snd]⟩ :=
      lookup_map_set st.tables tname t _ hlook
    have hkeys : ([("id", Value.int (nextRowId t.rows))]).all
        (fun c => (DBTable.mk t.cols (t.rows ++
          [Value.int (nextRowId t.rows) :: data.map Prod.snd])).cols.contains
            c.fst) = true := by
      simp [List.elem_iff, hcols]
    have hsel := selectStore_eq_filter _ tname htn _ hlook2
      [("id", Value.int (nextRowId t.rows))] hkeys
    rw [hsel]
    have hold : t.rows.filter
        (rowMatches t.cols [("id", Value.int (nextRowId t.rows))]) = [] := by
      rw [List.filter_eq_nil_iff]
      intro r hr hmatch
      have hcv := (rowMatches_iff _ _ _).mp hmatch
        ("id", Value.int (nextRowId t.rows)) (List.mem_singleton.mpr rfl)
      rw [hcols] at hcv
      simp only [colValue, colIndex, if_pos rfl, Option.map_some'] at hcv
      have hgd : r.getD 0 Value.none = Value.int (nextRowId t.rows) :=
        Option.some.inj hcv
      exact old_row_pk_ne_nextRowId t.rows r hr hgd
    have hnew : rowMatches t.cols
        [("id", Value.int (nextRowId t.rows))]
        (Value.int (nextRowId t.rows) :: data.map Prod.snd) = true := by
      rw [rowMatches_iff]
      intro kv hkv
      rw [List.mem_singleton] at hkv
      subst hkv
      rw [hcols]
      simp [colValue, colIndex]
    have hfilter : ((t.rows ++
        [Value.int (nextRowId t.rows) :: data.map Prod.snd]).filter
          (rowMatches t.cols [("id", Value.int (nextRowId t.rows))])) =
        [Value.int (nextRowId t.rows) :: data.map Prod.snd] := by
      rw [List.filter_append, hold]
      simp [hnew]
    simp [hfilter]

/-- Witness for C8: inserting `{"name": "Alice", "email": "a@x.com"}` into
`users` of `demoStore` returns a positive id, and selecting by that id
returns exactly the inserted row. -/
theorem insert_select_roundtrip_witness :
    ∃ (newId : Int) (st2 : Store),
      insertStore demoStore (Value.str "users")
        [("name", Value.str "Alice"), ("email", Value.str "a@x.com")] =
        Except.ok (newId, st2) ∧
      0 < newId ∧
      selectStore st2 (Value.str "users") ["*"] [("id", Value.int newId)] =
        Except.ok [Value.int newId ::
          [("name", Value.str "Alice"), ("email", Value.str "a@x.com")].map
            Prod.snd] :=
  insert_select_roundtrip demoStore "users" (by decide) usersTable (by rfl)
    ["name", "email"] (by rfl) (by decide) (by decide)
    [("name", Value.str "Alice"), ("email", Value.str "a@x.com")]
    (by rfl) (by simp)

/-! ### C9: get-by-id endpoints, 404 iff empty result set -/

/-- C9: For every id, the get-by-id endpoints return the 404 not-found
failure (detail `"User not found"` for users, `"password not found"` for
passwords) iff the select result set for that id is empty; they never
surface a store-level exception (under a well-formed store), and otherwise
the first row is mapped positionally and returned. -/
theorem get_by_id_notfound_iff_empty (st : Store) (ut pt : DBTable)
    (hu : st.tables.lookup "users" = Option.some ut)
    (hp : st.tables.lookup "passwords" = Option.some pt)
    (hucol : ut.cols.contains "id" = true)
    (hpcol : pt.cols.contains "id" = true) (uid pid : Int) :
    (get_user st uid = EndpointResult.httpError 404 "User not found" ↔
      ut.rows.filter (rowMatches ut.cols [("id", Value.int uid)]) = []) ∧
    (∀ m : String, get_user st uid ≠ EndpointResult.uncaught m) ∧
    (∀ (r : Row) (rest : List Row),
      ut.rows.filter (rowMatches ut.cols [("id", Value.int uid)]) = r :: rest →
      get_user st uid = EndpointResult.ok
        ⟨r.getD 0 Value.none, r.getD 1 Value.none, r.getD 2 Value.none⟩) ∧
    (get_password st pid = EndpointResult.httpError 404 "password not found" ↔
      pt.rows.filter (rowMatches pt.cols [("id", Value.int pid)]) = []) ∧
    (∀ m : String, get_password st pid ≠ EndpointResult.uncaught m) ∧
    (∀ (r : Row) (rest : List Row),
      pt.rows.filter (rowMatches pt.cols [("id", Value.int pid)]) = r :: rest →
      get_password st pid = EndpointResult.ok
        ⟨r.getD 0 Value.none, r.getD 1 Value.none, r.getD 2 Value.none⟩) := by
  have hselu := selectStore_eq_filter st "users" (by decide) ut hu
    [("id", Value.int uid)] (by simpa using hucol)
  have hselp := selectStore_eq_filter st "passwords" (by decide) pt hp
    [("id", Value.int pid)] (by simpa using hpcol)
  refine ⟨?_, ?_, ?_, ?_, ?_, ?_⟩
  · unfold get_user
    rw [hselu]
    cases hf : ut.rows.filter (rowMatches ut.cols [("id", Value.int uid)]) with
    | nil => simp
    | cons r rest => simp
  · intro m
    unfold get_user
    rw [hselu]
    cases ut.rows.filter (rowMatches ut.cols [("id", Value.int uid)]) with
    | nil => simp
    | cons r rest => simp
  · intro r rest hf
    unfold get_user
    rw [hselu, hf]
  · unfold get_password
    rw [hselp]
    cases hf : pt.rows.filter (rowMatches pt.cols [("id", Value.int pid)]) with
    | nil => simp
    | cons r rest => simp
  · intro m
    unfold get_password
    rw [hselp]
    cases pt.rows.filter (rowMatches pt.cols [("id", Value.int pid)]) with
    | nil => simp
    | cons r rest => simp
  · intro r rest hf
    unfold get_password
    rw [hselp, hf]

/-- Witness for C9 over `demoStore` at id 999 (present in neither table):
both endpoints answer 404 with their resource-specific details. -/
theorem get_by_id_notfound_iff_empty_witness :
    (get_user demoStore 999 = EndpointResult.httpError 404 "User not found" ↔
      usersTable.rows.filter
        (rowMatches usersTable.cols [("id", Value.int 999)]) = []) ∧
    (∀ m : String, get_user demoStore 999 ≠ EndpointResult.uncaught m) ∧
    (∀ (r : Row) (rest : List Row),
      usersTable.rows.filter
        (rowMatches usersTable.cols [("id", Value.int 999)]) = r :: rest →
      get_user demoStore 999 = EndpointResult.ok
        ⟨r.getD 0 Value.none, r.getD 1 Value.none, r.getD 2 Value.none⟩) ∧
    (get_password demoStore 999 =
        EndpointResult.httpError 404 "password not found" ↔
      passwordsTable.rows.filter
        (rowMatches passwordsTable.cols [("id", Value.int 999)]) = []) ∧
    (∀ m : String, get_password demoStore 999 ≠ EndpointResult.uncaught m) ∧
    (∀ (r : Row) (rest : List Row),
      passwordsTable.rows.filter
        (rowMatches passwordsTable.cols [("id", Value.int 999)]) = r :: rest →
      get_password demoStore 999 = EndpointResult.ok
        ⟨r.getD 0 Value.none, r.getD 1 Value.none, r.getD 2 Value.none⟩) :=
  get_by_id_notfound_iff_empty demoStore usersTable passwordsTable
    (by rfl) (by rfl) (by decide) (by decide) 999 999
